import Mathlib

/-!
Verification of the receipt-to-transaction extraction core of the Finance
repository (`backend/routes/receipts.js`, category lists from
`backend/models/Transaction.js`).

The JavaScript source works on strings with `String.prototype.match` over a
handful of fixed regular expressions.  We embed the relevant fragment of the
JavaScript regex language (single-character classes with greedy or lazy
counted quantifiers, case-insensitive literals, capture groups) together with
a backtracking matcher that enumerates alternatives in exactly the preference
order of the JavaScript engine, so that `line.match(pattern)` corresponds to
`regexFind pattern line`.

Monetary values produced by `parseFloat` on strings of the shape
`\d+\.?\d*` are exact decimal fractions; we model them by `Money`, a
gcd-normalised non-negative fraction type whose arithmetic the kernel can
evaluate, so equality of `Money` values coincides with equality of the
numbers JavaScript computes on these inputs.
-/

namespace Finance

/-! ### Exact non-negative fractions -/

/-- A non-negative rational in lowest terms, used to model the (non-negative,
decimal) numbers produced by `parseFloat` in the extraction code. -/
structure Money where
  num : Nat
  den : Nat
  den_pos : 0 < den

instance : DecidableEq Money := fun a b =>
  if h : a.num = b.num ∧ a.den = b.den then
    isTrue (by
      obtain ⟨h1, h2⟩ := h
      cases a; cases b
      simp only at h1 h2
      subst h1; subst h2
      rfl)
  else
    isFalse (by
      intro e
      cases e
      exact h ⟨rfl, rfl⟩)

instance : OfNat Money n := ⟨⟨n, 1, Nat.one_pos⟩⟩

/-- Build the fraction `n / d` in lowest terms (`0` if `d = 0`, which no
caller uses). -/
def mkMoney (n d : Nat) : Money :=
  if h : 0 < d then
    ⟨n / Nat.gcd n d, d / Nat.gcd n d,
      Nat.div_pos (Nat.le_of_dvd h (Nat.gcd_dvd_right n d))
        (Nat.gcd_pos_of_pos_right n h)⟩
  else ⟨0, 1, Nat.one_pos⟩

/-- Strict comparison of the represented values. -/
def Money.lt (a b : Money) : Bool :=
  decide (a.num * b.den < b.num * a.den)

/-- Exact addition of the represented values. -/
def Money.add (a b : Money) : Money :=
  mkMoney (a.num * b.den + b.num * a.den) (a.den * b.den)

/-- `max`, written as the conditional update the JavaScript code performs. -/
def Money.max (a b : Money) : Money :=
  if a.lt b then b else a

/-! ### Character classes of the JavaScript regexes -/

/-- `\d` -/
def isDigitC (c : Char) : Bool :=
  decide ('0' ≤ c ∧ c ≤ '9')

/-- `\s` (the whitespace characters relevant to this code). -/
def isSpaceC (c : Char) : Bool :=
  c == ' ' || c == '\t' || c == '\n' || c == '\r' || c == '\x0b' || c == '\x0c' || c == '\u00A0'

/-- `\w` -/
def isWordC (c : Char) : Bool :=
  isDigitC c || decide ('a' ≤ c ∧ c ≤ 'z') || decide ('A' ≤ c ∧ c ≤ 'Z') || c == '_'

/-- `.` (anything but a line terminator). -/
def isDotC (c : Char) : Bool :=
  !(c == '\n' || c == '\r' || c == '\u2028' || c == '\u2029')

/-! ### A mini regex engine for the fragment used by `receipts.js`

Every regex in `receipts.js` is a sequence of:
  * a (possibly case-insensitive) literal,
  * a single-character class under a counted quantifier
    (`*`, `+`, `?`, `{lo,hi}`, greedy or lazy), or
  * a capture group containing such quantified classes.
The matcher below enumerates the remainders of all ways to match, in the
exact preference order of the backtracking JavaScript engine (greedy:
longest first; lazy: shortest first), so the head of the enumeration is the
match JavaScript reports. -/

/-- One quantified class or literal. -/
inductive Tok where
  | cls (p : Char → Bool) (lo : Nat) (hi : Option Nat) (lz : Bool)
  | lit (s : List Char) (ci : Bool)

/-- A pattern element: a bare token or a capture group of tokens. -/
inductive Item where
  | tok (t : Tok)
  | grp (ts : List Tok)

/-- Repetition counts to try, in preference order. -/
def countsFor (lo maxN : Nat) (lz : Bool) : List Nat :=
  if lo ≤ maxN then
    if lz then List.range' lo (maxN - lo + 1)
    else (List.range' lo (maxN - lo + 1)).reverse
  else []

/-- All remainders after matching one token, in preference order. -/
def tokRems : Tok → List Char → List (List Char)
  | .cls p lo hi lz, input =>
    let run := (input.takeWhile p).length
    let maxN := match hi with
      | some h => Nat.min h run
      | none => run
    (countsFor lo maxN lz).map (fun n => input.drop n)
  | .lit s ci, input =>
    let n := s.length
    if n ≤ input.length then
      let pre := input.take n
      let same := if ci then pre.map Char.toLower == s.map Char.toLower else pre == s
      if same then [input.drop n] else []
    else []

/-- All remainders after matching a token sequence, in preference order. -/
def toksRems : List Tok → List Char → List (List Char)
  | [], input => [input]
  | t :: ts, input => (tokRems t input).flatMap (fun rem => toksRems ts rem)

/-- All (captures, remainder) pairs after matching a pattern at the start of
the input, in preference order. -/
def itemsCaps : List Item → List Char → List (List (List Char) × List Char)
  | [], input => [([], input)]
  | .tok t :: rest, input =>
    (tokRems t input).flatMap (fun rem => itemsCaps rest rem)
  | .grp ts :: rest, input =>
    (toksRems ts input).flatMap (fun rem =>
      let cap := input.take (input.length - rem.length)
      (itemsCaps rest rem).map (fun pr => (cap :: pr.1, pr.2)))

/-- `line.match(pattern)` without the `g` flag: the capture list of the
match at the leftmost possible start position, preferred alternatives first;
`none` when the line does not match. -/
def regexFind (pat : List Item) : List Char → Option (List (List Char))
  | [] => ((itemsCaps pat []).head?).map Prod.fst
  | c :: t =>
    match (itemsCaps pat (c :: t)).head? with
    | some pr => some pr.1
    | none => regexFind pat t

/-! ### String helpers mirroring the JavaScript string operations -/

/-- Digits to a number (the integer part of `parseFloat`). -/
def natOfDigits (l : List Char) : Nat :=
  l.foldl (fun a c => 10 * a + (c.toNat - 48)) 0

/-- `parseFloat` on a string matched by `(\d+\.?\d*)`: exact decimal value. -/
def parseDecimal (s : List Char) : Money :=
  let ip := s.takeWhile isDigitC
  let fp := ((s.dropWhile isDigitC).drop 1).takeWhile isDigitC
  mkMoney (natOfDigits (ip ++ fp)) (10 ^ fp.length)

/-- Substring containment, `haystack.includes(needle)`. -/
def containsSub : List Char → List Char → Bool
  | _, [] => true
  | [], _ :: _ => false
  | h :: t, n :: ns => (n :: ns).isPrefixOf (h :: t) || containsSub t (n :: ns)

/-- `s.toLowerCase()` (ASCII, which is all this code feeds it). -/
def lowerL (l : List Char) : List Char :=
  l.map Char.toLower

/-- `s.trim()`. -/
def jsTrim (l : List Char) : List Char :=
  ((l.dropWhile isSpaceC).reverse.dropWhile isSpaceC).reverse

/-- Split on a character predicate (`text.split('\n')` style: keeps empty
pieces, one more piece than separators). -/
def splitOnPred (p : Char → Bool) : List Char → List (List Char)
  | [] => [[]]
  | c :: t =>
    if p c then [] :: splitOnPred p t
    else
      match splitOnPred p t with
      | [] => [[c]]
      | l :: ls => (c :: l) :: ls

/-- `text.split('\n').map(l => l.trim()).filter(l => l.length > 0)`, the
line normalisation performed at the top of every extraction function. -/
def normalizeLines (text : String) : List (List Char) :=
  ((splitOnPred (fun c => c == '\n') text.data).map jsTrim).filter
    (fun l => !l.isEmpty)

/-! ### The regexes of `receipts.js`, transcribed -/

/-- The capture `(\d+\.?\d*)`. -/
def numGroup : Item :=
  .grp [.cls isDigitC 1 none false,
        .cls (fun c => c == '.') 0 (some 1) false,
        .cls isDigitC 0 none false]

/-- `/label[:\s]*\$?(\d+\.?\d*)/i` for a literal label, the common shape of
the total and tax patterns. -/
def labelPattern (label : List Char) : List Item :=
  [.tok (.lit label true),
   .tok (.cls (fun c => c == ':' || isSpaceC c) 0 none false),
   .tok (.cls (fun c => c == '$') 0 (some 1) false),
   numGroup]

/-- `totalPatterns` (receipts.js line 95). -/
def totalPatterns : List (List Item) :=
  [labelPattern "total".data, labelPattern "amount".data, labelPattern "sum".data]

/-- `taxPatterns` (receipts.js line 114). -/
def taxPatterns : List (List Item) :=
  [labelPattern "tax".data, labelPattern "vat".data, labelPattern "gst".data]

/-- The tokens of `\d{1,2}[\/\-]\d{1,2}[\/\-]\d{2,4}`. -/
def dateToks : List Tok :=
  [.cls isDigitC 1 (some 2) false,
   .cls (fun c => c == '/' || c == '-') 1 (some 1) false,
   .cls isDigitC 1 (some 2) false,
   .cls (fun c => c == '/' || c == '-') 1 (some 1) false,
   .cls isDigitC 2 (some 4) false]

/-- `/(\d{1,2}[\/\-]\d{1,2}[\/\-]\d{2,4})/` (first date pattern). -/
def datePattern1 : List Item := [.grp dateToks]

/-- `/(\d{2,4}[\/\-]\d{1,2}[\/\-]\d{1,2})/` (second date pattern). -/
def datePattern2 : List Item :=
  [.grp [.cls isDigitC 2 (some 4) false,
         .cls (fun c => c == '/' || c == '-') 1 (some 1) false,
         .cls isDigitC 1 (some 2) false,
         .cls (fun c => c == '/' || c == '-') 1 (some 1) false,
         .cls isDigitC 1 (some 2) false]]

/-- `/(\w{3,9}\s+\d{1,2},?\s+\d{2,4})/i` (third date pattern). -/
def datePattern3 : List Item :=
  [.grp [.cls isWordC 3 (some 9) false,
         .cls isSpaceC 1 none false,
         .cls isDigitC 1 (some 2) false,
         .cls (fun c => c == ',') 0 (some 1) false,
         .cls isSpaceC 1 none false,
         .cls isDigitC 2 (some 4) false]]

/-- `datePatterns` (receipts.js line 131). -/
def datePatterns : List (List Item) :=
  [datePattern1, datePattern2, datePattern3]

/-- `itemPattern = /(.+?)\s+\$?(\d+\.?\d*)/` (receipts.js line 153). -/
def itemPattern : List Item :=
  [.grp [.cls isDotC 1 none true],
   .tok (.cls isSpaceC 1 none false),
   .tok (.cls (fun c => c == '$') 0 (some 1) false),
   numGroup]

/-- `transactionPattern = /(\d{1,2}[\/\-]\d{1,2}[\/\-]\d{2,4})\s+(.+?)\s+[\$\-]?(\d+\.?\d*)/`
(receipts.js line 405).  Note the optional sign class is `[\$\-]`: it admits
`$` and `-` but not `+`. -/
def transactionPattern : List Item :=
  [.grp dateToks,
   .tok (.cls isSpaceC 1 none false),
   .grp [.cls isDotC 1 none true],
   .tok (.cls isSpaceC 1 none false),
   .tok (.cls (fun c => c == '$' || c == '-') 0 (some 1) false),
   numGroup]

/-! ### Data model -/

/-- The value of a successfully constructed JavaScript `Date` (year, month
1–12, day). -/
structure JsDate where
  month : Nat
  day : Nat
  year : Nat
deriving DecidableEq

/-- One extracted line item (quantity is always the constant 1). -/
structure LineItem where
  name : String
  price : Money
  quantity : Nat
deriving DecidableEq

/-- The result record of `extractReceiptData`. -/
structure ExtractedReceiptData where
  merchantName : String
  merchantAddress : String
  totalAmount : Money
  taxAmount : Money
  date : Option JsDate
  items : List LineItem
deriving DecidableEq

/-- One row produced by `parseTransactionHistory`. -/
structure SuggestedTransaction where
  type : String
  amount : Money
  description : String
  category : String
  date : JsDate
  paymentMethod : String
deriving DecidableEq

/-! ### The JavaScript `Date` constructor, modelled -/

/-- English month names, for the textual date format. -/
def monthNames : List (List Char) :=
  ["january".data, "february".data, "march".data, "april".data, "may".data,
   "june".data, "july".data, "august".data, "september".data, "october".data,
   "november".data, "december".data]

/-- Two-digit years resolve to 20xx below 50 and 19xx below 100. -/
def fixYear (y : Nat) : Nat :=
  if y ≤ 49 then 2000 + y else if y ≤ 99 then 1900 + y else y

/-- Index of the month whose name the given (lowercased) token abbreviates
(three letters or more), as the V8 date parser accepts. -/
def monthOfName (w : List Char) : Option Nat :=
  if 3 ≤ w.length then
    match (List.range' 1 12).find?
        (fun i => w.isPrefixOf ((monthNames.getD (i - 1) []) : List Char)) with
    | some i => some i
    | none => none
  else none

/-- Textual form `Month D, Y` (what the third date pattern captures). -/
def textualDate (s : List Char) : Option JsDate :=
  let w := s.takeWhile (fun c => !isSpaceC c)
  match monthOfName (lowerL w) with
  | none => none
  | some m =>
    let r1 := (s.dropWhile (fun c => !isSpaceC c)).dropWhile isSpaceC
    let ds := r1.takeWhile isDigitC
    let r2 := r1.dropWhile isDigitC
    let r3 := (match r2 with
      | ',' :: t => t
      | t => t).dropWhile isSpaceC
    let ys := r3.takeWhile isDigitC
    if !ds.isEmpty && !ys.isEmpty then
      let d := natOfDigits ds
      if 1 ≤ d ∧ d ≤ 31 then some ⟨m, d, fixYear (natOfDigits ys)⟩ else none
    else none

/-- Modelled from the environment: JavaScript `new Date(string)` (V8
semantics) restricted to the strings the date captures can produce —
numeric `M/D/Y`, `Y/M/D` (slash or dash) and textual `Month D, Y`; `none`
stands for an `Invalid Date` (`isNaN(date.getTime())`). -/
def jsParseDateOpt (s : List Char) : Option JsDate :=
  let parts := splitOnPred (fun c => c == '/' || c == '-') s
  match parts with
  | [a, b, c] =>
    if (a.all isDigitC && b.all isDigitC && c.all isDigitC)
        && (!a.isEmpty && !b.isEmpty && !c.isEmpty) then
      let x := natOfDigits a
      let y := natOfDigits b
      let z := natOfDigits c
      if 1 ≤ x ∧ x ≤ 12 ∧ 1 ≤ y ∧ y ≤ 31 then some ⟨x, y, fixYear z⟩
      else if 32 ≤ x ∧ 1 ≤ y ∧ y ≤ 12 ∧ 1 ≤ z ∧ z ≤ 31 then some ⟨y, z, x⟩
      else none
    else none
  | _ => textualDate s

/-! ### `extractReceiptData` (receipts.js lines 77–176) -/

/-- The amount a label pattern extracts from one line:
`parseFloat(match[1])` when the line matches. -/
def patternValue (pat : List Item) (line : List Char) : Option Money :=
  (regexFind pat line).map (fun caps => parseDecimal (caps.headD []))

/-- The total-amount scan: for each line and each total pattern, a matching
amount larger than the accumulator replaces it (receipts.js lines 101–111). -/
def detectedTotal (lines : List (List Char)) : Money :=
  lines.foldl (fun acc line =>
    totalPatterns.foldl (fun a pat =>
      match patternValue pat line with
      | some amount => if a.lt amount then amount else a
      | none => a) acc) 0

/-- The tax-amount scan: per line the first matching pattern wins (the inner
`break`), and each matching line overwrites the accumulator — the `break`
does not leave the outer line loop (receipts.js lines 120–128). -/
def taxScan (lines : List (List Char)) : Money :=
  lines.foldl (fun acc line =>
    match taxPatterns.findSome? (fun pat => patternValue pat line) with
    | some v => v
    | none => acc) 0

/-- The date scan: first pattern whose capture parses into a valid date,
then stop scanning the whole document (receipts.js lines 137–150). -/
def dateScan (lines : List (List Char)) : Option JsDate :=
  lines.foldl (fun acc line =>
    match acc with
    | some _ => acc
    | none =>
      datePatterns.findSome? (fun pat =>
        (regexFind pat line).bind (fun caps => jsParseDateOpt (caps.headD [])))) none

/-- The body of the item loop for one line (receipts.js lines 154–167). -/
def itemOfLine (line : List Char) : Option LineItem :=
  match regexFind itemPattern line with
  | some caps =>
    if !(containsSub (lowerL line) "total".data)
        && !(containsSub (lowerL line) "tax".data) then
      if 2 < (jsTrim (caps.headD [])).length
          ∧ (0 : Money).lt (parseDecimal (caps.getD 1 [])) then
        some ⟨String.mk (jsTrim (caps.headD [])), parseDecimal (caps.getD 1 []), 1⟩
      else none
    else none
  | none => none

/-- The extracted items, in input line order. -/
def extractItems (lines : List (List Char)) : List LineItem :=
  lines.filterMap itemOfLine

/-- The item-sum fallback (receipts.js lines 169–173): if the detected
total is 0 and items exist, their price sum (when positive) replaces it. -/
def fallbackTotal (t0 : Money) (items : List LineItem) : Money :=
  if t0 = 0 ∧ 0 < items.length then
    if (0 : Money).lt (items.foldl (fun acc it => acc.add it.price) 0) then
      items.foldl (fun acc it => acc.add it.price) 0
    else t0
  else t0

/-- `extractReceiptData` (receipts.js lines 77–176): merchant name is the
first line; total, tax, date and items as above, with the item-sum
fallback applied to the total. -/
def extractReceiptData (text : String) : ExtractedReceiptData :=
  ⟨String.mk ((normalizeLines text).headD []), "",
   fallbackTotal (detectedTotal (normalizeLines text))
     (extractItems (normalizeLines text)),
   taxScan (normalizeLines text),
   dateScan (normalizeLines text),
   extractItems (normalizeLines text)⟩

/-! ### `suggestCategory` (receipts.js lines 179–200) -/

/-- The keyword table, in declaration order. -/
def categoryKeywords : List (String × List String) :=
  [("food", ["restaurant", "cafe", "pizza", "burger", "food", "kitchen", "diner", "bistro"]),
   ("groceries", ["grocery", "supermarket", "market", "walmart", "target", "costco", "safeway"]),
   ("gas", ["gas", "fuel", "shell", "exxon", "bp", "chevron", "mobil"]),
   ("shopping", ["store", "shop", "mall", "retail", "amazon", "ebay"]),
   ("healthcare", ["pharmacy", "hospital", "clinic", "medical", "doctor", "cvs", "walgreens"]),
   ("entertainment", ["cinema", "movie", "theater", "netflix", "spotify", "game"]),
   ("transportation", ["uber", "lyft", "taxi", "bus", "train", "metro", "parking"]),
   ("utilities", ["electric", "water", "internet", "phone", "cable", "utility"])]

/-- `suggestCategory(merchantName)`: first category (in declaration order)
one of whose keywords occurs in the lowercased name; else `"other-expense"`. -/
def suggestCategory (merchantName : String) : String :=
  let merchantLower := lowerL merchantName.data
  match categoryKeywords.find?
      (fun e => e.2.any (fun k => containsSub merchantLower k.data)) with
  | some e => e.1
  | none => "other-expense"

/-! ### Transaction model category lists (models/Transaction.js lines 60–72) -/

/-- `Transaction.getCategoriesByType`. -/
def getCategoriesByType (type : String) : List String :=
  if type = "income" then
    ["salary", "freelance", "business", "investment", "rental", "gift", "others"]
  else if type = "expense" then
    ["food-dining", "transportation", "shopping", "entertainment", "bills-utilities",
     "healthcare", "education", "travel", "groceries", "gas", "others"]
  else []

/-- The schema's category validator: membership in the per-type list
(models/Transaction.js lines 25–35). -/
def validCategory (type cat : String) : Bool :=
  (getCategoriesByType type).contains cat

/-! ### History-mode detection and the transaction-history parser -/

/-- The history-mode test over the normalised lines (receipts.js lines
308–313): some line contains `date`, `amount` and (`description` or
`transaction`), case-insensitively. -/
def isTransactionHistory (text : String) : Bool :=
  (normalizeLines text).any (fun line =>
    containsSub (lowerL line) "date".data
      && containsSub (lowerL line) "amount".data
      && (containsSub (lowerL line) "description".data
          || containsSub (lowerL line) "transaction".data))

/-- The `isIncome` test of the history loop (receipts.js lines 417–420):
the trimmed description contains `deposit`, `salary` or `payment received`,
or the raw line contains a literal `+`. -/
def isIncomeLine (line description : List Char) : Bool :=
  containsSub (lowerL description) "deposit".data
    || containsSub (lowerL description) "salary".data
    || containsSub (lowerL description) "payment received".data
    || line.contains '+'

/-- The body of the history loop for one line (receipts.js lines 408–433):
`match[1]` is the date string, `match[2]` (trimmed) the description,
`match[3]` the amount; a row is kept only for a valid date and a positive
amount. -/
def rowOfLine (line : List Char) : Option SuggestedTransaction :=
  match regexFind transactionPattern line with
  | none => none
  | some caps =>
    match jsParseDateOpt (caps.headD []) with
    | none => none
    | some parsedDate =>
      if (0 : Money).lt (parseDecimal (caps.getD 2 [])) then
        some ⟨if isIncomeLine line (jsTrim (caps.getD 1 [])) then "income" else "expense",
          parseDecimal (caps.getD 2 []),
          String.mk (jsTrim (caps.getD 1 [])),
          if isIncomeLine line (jsTrim (caps.getD 1 [])) then "other-income"
            else suggestCategory (String.mk (jsTrim (caps.getD 1 []))),
          parsedDate, "bank-transfer"⟩
      else none

/-- `parseTransactionHistory` (receipts.js lines 400–437). -/
def parseTransactionHistory (text : String) : List SuggestedTransaction :=
  (normalizeLines text).filterMap rowOfLine

/-! ### The upload route handlers (receipts.js lines 205–285 and 290–397)

The handlers are modelled as pure functions of the uploaded file (if any),
the outcome of the external OCR / PDF-text decode (`none` = the awaited
decoder threw) and the current time (`new Date()`). -/

/-- The stored upload the route sees (`req.file`). -/
structure UploadedFile where
  path : String
  filename : String

/-- The `suggestedTransaction` object the routes put in their JSON
responses. -/
structure RouteSuggested where
  type : String
  amount : Money
  description : String
  category : String
  date : JsDate
  location : Option String
deriving DecidableEq

/-- The observable part of a route response: HTTP status, `success` flag,
`message`, and the suggested transaction(s) carried in `data`. -/
structure UploadResponse where
  status : Nat
  success : Bool
  message : String
  suggested : Option RouteSuggested
  transactions : Option (List SuggestedTransaction)
deriving DecidableEq

/-- `POST /upload-image` (receipts.js lines 205–285): 400 without a file;
on OCR success the extracted suggestion; the catch handler answers 200 with
the manual-entry placeholder when a file is present. -/
def uploadImageHandler (file : Option UploadedFile) (ocrText : Option String)
    (now : JsDate) : UploadResponse :=
  match file with
  | none => ⟨400, false, "No image file uploaded", none, none⟩
  | some _ =>
    match ocrText with
    | some text =>
      ⟨200, true, "Receipt processed successfully",
        some ⟨"expense", (extractReceiptData text).totalAmount,
          if (extractReceiptData text).merchantName = "" then "Receipt transaction"
            else (extractReceiptData text).merchantName,
          suggestCategory (extractReceiptData text).merchantName,
          ((extractReceiptData text).date).getD now,
          some (extractReceiptData text).merchantName⟩, none⟩
    | none =>
      ⟨200, true, "Receipt uploaded but OCR processing failed",
        some ⟨"expense", 0, "Manual entry required", "other-expense", now, none⟩, none⟩

/-- `POST /upload-pdf` (receipts.js lines 290–397): 400 without a file; on
decode success either the history branch or the single-receipt branch; the
catch handler answers 200 with the manual-entry placeholder when a file is
present. -/
def uploadPdfHandler (file : Option UploadedFile) (pdfText : Option String)
    (now : JsDate) : UploadResponse :=
  match file with
  | none => ⟨400, false, "No PDF file uploaded", none, none⟩
  | some _ =>
    match pdfText with
    | some text =>
      if isTransactionHistory text then
        ⟨200, true, "Transaction history processed successfully", none,
          some (parseTransactionHistory text)⟩
      else
        ⟨200, true, "PDF receipt processed successfully",
          some ⟨"expense", (extractReceiptData text).totalAmount,
            if (extractReceiptData text).merchantName = "" then "PDF receipt transaction"
              else (extractReceiptData text).merchantName,
            suggestCategory (extractReceiptData text).merchantName,
            ((extractReceiptData text).date).getD now,
            some (extractReceiptData text).merchantName⟩, none⟩
    | none =>
      ⟨200, true, "PDF uploaded but processing failed",
        some ⟨"expense", 0, "Manual entry required", "other-expense", now, none⟩, none⟩

/-! ### Spec-side characterisations

These definitions restate what the claims say, in the claims' own terms,
to be compared with the code-derived definitions above. -/

/-- All values matched by the total patterns, over all lines (every line is
tried against every pattern). -/
def totalMatchValues (text : String) : List Money :=
  (normalizeLines text).flatMap (fun line =>
    totalPatterns.filterMap (fun pat => patternValue pat line))

/-- Per line, the value of the first tax pattern that matches (the inner
`break`); one entry per matching line, in line order. -/
def taxLineValues (text : String) : List Money :=
  (normalizeLines text).filterMap (fun line =>
    taxPatterns.findSome? (fun pat => patternValue pat line))

/-- Stated from claim C7: a line containing `total` or `tax`
(case-insensitively) yields nothing; otherwise the item pattern must match,
the trimmed description must be longer than 2 characters and the price
positive; the quantity is the constant 1. -/
def lineItemSpec (line : List Char) : Option LineItem :=
  if containsSub (lowerL line) "total".data || containsSub (lowerL line) "tax".data then
    none
  else
    match regexFind itemPattern line with
    | some caps =>
      if 2 < (jsTrim (caps.headD [])).length
          ∧ (0 : Money).lt (parseDecimal (caps.getD 1 [])) then
        some ⟨String.mk (jsTrim (caps.headD [])), parseDecimal (caps.getD 1 []), 1⟩
      else none
    | none => none

/-- Stated from claim C6: walk the keyword table in declaration order and
return the first category one of whose keywords occurs in the (lowercased)
name; `"other-expense"` when the walk falls off the end. -/
def firstMatching (ml : List Char) : List (String × List String) → String
  | [] => "other-expense"
  | e :: rest =>
    if e.2.any (fun k => containsSub ml k.data) then e.1 else firstMatching ml rest

/-- The classifier as claim C6 describes it. -/
def suggestCategorySpec (merchantName : String) : String :=
  firstMatching (lowerL merchantName.data) categoryKeywords

/-- The nine strings claim C9 asserts to be the exact range of
`suggestCategory`. -/
def nineCats : List String :=
  ["food", "groceries", "gas", "shopping", "healthcare", "entertainment",
   "transportation", "utilities", "other-expense"]

/-! ### Helper lemmas -/

theorem foldl_matchmax {α : Type} (g : α → Option Money) :
    ∀ (l : List α) (a : Money),
      l.foldl (fun acc x =>
        match g x with
        | some v => if acc.lt v then v else acc
        | none => acc) a
        = (l.filterMap g).foldl Money.max a := by
  intro l
  induction l with
  | nil => intro a; rfl
  | cons x xs ih =>
    intro a
    rw [List.foldl_cons, List.filterMap_cons]
    cases hx : g x with
    | none => simp only [hx]; exact ih a
    | some v =>
      simp only [hx, List.foldl_cons]
      exact ih (if a.lt v then v else a)

theorem foldl_overwrite {α : Type} (g : α → Option Money) :
    ∀ (l : List α) (a : Money),
      l.foldl (fun acc x =>
        match g x with
        | some v => v
        | none => acc) a
        = (l.filterMap g).getLastD a := by
  intro l
  induction l with
  | nil => intro a; rfl
  | cons x xs ih =>
    intro a
    rw [List.foldl_cons, List.filterMap_cons]
    cases hx : g x with
    | none => simp only [hx]; exact ih a
    | some v => simp only [hx, List.getLastD_cons]; exact ih v

theorem detectedTotal_eq_max (lines : List (List Char)) :
    detectedTotal lines =
      (lines.flatMap (fun line =>
        totalPatterns.filterMap (fun pat => patternValue pat line))).foldl
        Money.max 0 := by
  unfold detectedTotal
  generalize (0 : Money) = a
  induction lines generalizing a with
  | nil => rfl
  | cons l ls ih =>
    rw [List.foldl_cons, List.flatMap_cons, List.foldl_append,
      foldl_matchmax (fun pat => patternValue pat l) totalPatterns a]
    exact ih _

theorem taxScan_eq_last (lines : List (List Char)) :
    taxScan lines =
      (lines.filterMap (fun line =>
        taxPatterns.findSome? (fun pat => patternValue pat line))).getLastD 0 := by
  unfold taxScan
  exact foldl_overwrite _ lines 0

theorem money_zero_lt_iff (a : Money) : (0 : Money).lt a = true ↔ 0 < a.num := by
  simp [Money.lt, OfNat.ofNat]

theorem money_pos_ne_zero (a : Money) (h : (0 : Money).lt a = true) : a ≠ 0 := by
  intro e
  rw [e] at h
  simp [Money.lt] at h

theorem mkMoney_num_pos (n d : Nat) (hn : 0 < n) (hd : 0 < d) :
    0 < (mkMoney n d).num := by
  unfold mkMoney
  rw [dif_pos hd]
  exact Nat.div_pos (Nat.le_of_dvd hn (Nat.gcd_dvd_left n d))
    (Nat.gcd_pos_of_pos_right n hd)

theorem money_add_pos_left (a b : Money) (h : 0 < a.num) : 0 < (a.add b).num := by
  unfold Money.add
  exact mkMoney_num_pos _ _
    (Nat.lt_of_lt_of_le (Nat.mul_pos h b.den_pos) (Nat.le_add_right _ _))
    (Nat.mul_pos a.den_pos b.den_pos)

theorem money_add_pos_right (a b : Money) (h : 0 < b.num) : 0 < (a.add b).num := by
  unfold Money.add
  exact mkMoney_num_pos _ _
    (Nat.lt_of_lt_of_le (Nat.mul_pos h a.den_pos) (Nat.le_add_left _ _))
    (Nat.mul_pos a.den_pos b.den_pos)

theorem foldl_add_keeps_pos (l : List LineItem) :
    ∀ (a : Money), 0 < a.num →
      0 < (l.foldl (fun acc it => acc.add it.price) a).num := by
  induction l with
  | nil => intro a ha; exact ha
  | cons x xs ih =>
    intro a ha
    rw [List.foldl_cons]
    exact ih _ (money_add_pos_left a x.price ha)

theorem itemOfLine_price_pos (line : List Char) (it : LineItem)
    (h : itemOfLine line = some it) : 0 < it.price.num := by
  unfold itemOfLine at h
  split at h
  · split at h
    · split at h
      · rename_i hcond
        cases h
        exact (money_zero_lt_iff _).mp hcond.2
      · exact absurd h (by simp)
    · exact absurd h (by simp)
  · exact absurd h (by simp)

theorem itemOfLine_eq_spec (line : List Char) :
    itemOfLine line = lineItemSpec line := by
  unfold itemOfLine lineItemSpec
  cases hm : regexFind itemPattern line with
  | none =>
    cases ht : (containsSub (lowerL line) "total".data
        || containsSub (lowerL line) "tax".data) <;> simp [ht]
  | some caps =>
    cases h1 : containsSub (lowerL line) "total".data <;>
      cases h2 : containsSub (lowerL line) "tax".data <;>
        simp [h1, h2]

theorem suggestCategory_mem (name : String) : suggestCategory name ∈ nineCats := by
  simp only [suggestCategory]
  split
  · rename_i e hf
    have he := List.mem_of_find?_eq_some hf
    unfold categoryKeywords at he
    fin_cases he <;> decide
  · decide

theorem suggestCategory_ne_other_income (name : String) :
    suggestCategory name ≠ "other-income" := by
  have h := suggestCategory_mem name
  intro e
  rw [e] at h
  exact absurd h (by decide)

theorem find?_eq_firstMatching (ml : List Char) :
    ∀ (l : List (String × List String)),
      (match l.find? (fun e => e.2.any (fun k => containsSub ml k.data)) with
       | some e => e.1
       | none => "other-expense") = firstMatching ml l := by
  intro l
  induction l with
  | nil => rfl
  | cons e es ih =>
    rw [List.find?_cons, firstMatching]
    cases hp : e.2.any (fun k => containsSub ml k.data) <;>
      simp only [hp] <;> first
      | rfl
      | exact ih

theorem rowOfLine_spec (line : List Char) (t : SuggestedTransaction)
    (h : rowOfLine line = some t) :
    (0 : Money).lt t.amount = true ∧
    t.paymentMethod = "bank-transfer" ∧
    (t.type = "income" ↔ isIncomeLine line t.description.data = true) ∧
    (t.type = "income" ↔ t.category = "other-income") := by
  unfold rowOfLine at h
  split at h
  · exact absurd h (by simp)
  · rename_i caps hc
    split at h
    · exact absurd h (by simp)
    · rename_i pd hpd
      split at h
      · rename_i hamt
        cases h
        cases hI : isIncomeLine line (jsTrim (caps.getD 1 [])) <;>
          · refine ⟨hamt, rfl, ?_, ?_⟩ <;>
              simp [hI, suggestCategory_ne_other_income]
      · exact absurd h (by simp)

/-! ### Claim theorems -/

/-- Claim C1, amended: `extractReceiptData`'s `totalAmount` equals the
maximum value matched across all lines by the total/amount/sum patterns
whenever no line items were extracted or that maximum is positive (in
particular it is 0 when no line matches and no items exist).  The original
universal claim fails because the item-sum fallback overrides a zero
detected total when items exist. -/
theorem C1_total_is_max_amended (text : String)
    (h : (extractReceiptData text).items = [] ∨
      (0 : Money).lt ((totalMatchValues text).foldl Money.max 0) = true) :
    (extractReceiptData text).totalAmount =
      (totalMatchValues text).foldl Money.max 0 := by
  have hproj : (extractReceiptData text).totalAmount =
      fallbackTotal (detectedTotal (normalizeLines text))
        (extractItems (normalizeLines text)) := rfl
  have hitems : (extractReceiptData text).items =
      extractItems (normalizeLines text) := rfl
  have hmax : detectedTotal (normalizeLines text) =
      (totalMatchValues text).foldl Money.max 0 := detectedTotal_eq_max _
  rcases h with h | h
  · have hne : ¬(detectedTotal (normalizeLines text) = 0 ∧
        0 < (extractItems (normalizeLines text)).length) := by
      rintro ⟨-, hlen⟩
      rw [hitems] at h
      rw [h] at hlen
      exact absurd hlen (by simp)
    rw [hproj, fallbackTotal, if_neg hne]
    exact hmax
  · have hne : ¬(detectedTotal (normalizeLines text) = 0 ∧
        0 < (extractItems (normalizeLines text)).length) := by
      rintro ⟨h0, -⟩
      rw [hmax] at h0
      exact money_pos_ne_zero _ h h0
    rw [hproj, fallbackTotal, if_neg hne]
    exact hmax

/-- Witness for C1 at `"TOTAL $45.00"`: no items, and the total equals the
maximum matched value (45). -/
theorem C1_witness :
    ((extractReceiptData "TOTAL $45.00").items = [] ∨
      (0 : Money).lt ((totalMatchValues "TOTAL $45.00").foldl Money.max 0) = true) ∧
    (extractReceiptData "TOTAL $45.00").totalAmount =
      (totalMatchValues "TOTAL $45.00").foldl Money.max 0 :=
  ⟨Or.inl (by decide), C1_total_is_max_amended "TOTAL $45.00" (Or.inl (by decide))⟩

/-- Counterexample to C1 as stated: on `"Xyz 5.00"` no total pattern
matches, yet `totalAmount` is 5 (the item-sum fallback), not 0. -/
theorem C1_counterexample :
    totalMatchValues "Xyz 5.00" = [] ∧
    (extractReceiptData "Xyz 5.00").totalAmount ≠ 0 := by decide

/-- Claim C2, amended: `taxAmount` is the value of the LAST line (in line
order) matching a tax/vat/gst pattern — within a line the first matching
pattern wins — and 0 when no line matches.  The original claim fails
because the `break` leaves only the inner pattern loop, so scanning does
not stop at the first matching line. -/
theorem C2_tax_last_match (text : String) :
    (extractReceiptData text).taxAmount = (taxLineValues text).getLastD 0 := by
  have hproj : (extractReceiptData text).taxAmount =
      taxScan (normalizeLines text) := rfl
  rw [hproj, taxScan_eq_last]
  rfl

/-- Counterexample to C2 as stated: on `"tax 1.00\ntax 2.00"` the first
matching line gives 1, but `taxAmount` is 2 (the last matching line). -/
theorem C2_counterexample :
    taxLineValues "tax 1.00\ntax 2.00" = [1, 2] ∧
    (extractReceiptData "tax 1.00\ntax 2.00").taxAmount = 2 ∧
    (extractReceiptData "tax 1.00\ntax 2.00").taxAmount ≠
      (taxLineValues "tax 1.00\ntax 2.00").headD 0 := by decide

/-- Claim C3, amended: the row `"01/05/2024 Salary Deposit +2000.00"`
yields NO transaction (the row pattern's optional sign class `[\$\-]`
admits `$` and `-` but not `+`, so the pattern fails); the same row without
the `+` yields exactly the claimed income transaction; and in general a
matching row's polarity is income exactly when the description contains
`deposit`, `salary` or `payment received`, or the raw line contains a
literal `+`. -/
theorem C3_history_row_amended :
    parseTransactionHistory "01/05/2024 Salary Deposit 2000.00" =
      [⟨"income", 2000, "Salary Deposit", "other-income", ⟨1, 5, 2024⟩,
        "bank-transfer"⟩] ∧
    (∀ (line : List Char) (t : SuggestedTransaction), rowOfLine line = some t →
      (t.type = "income" ↔ isIncomeLine line t.description.data = true)) :=
  ⟨by decide, fun line t h => (rowOfLine_spec line t h).2.2.1⟩

/-- Witness for C3's general clause at the concrete matching row. -/
theorem C3_witness :
    rowOfLine "01/05/2024 Salary Deposit 2000.00".data =
      some ⟨"income", 2000, "Salary Deposit", "other-income", ⟨1, 5, 2024⟩,
        "bank-transfer"⟩ ∧
    ((⟨"income", 2000, "Salary Deposit", "other-income", ⟨1, 5, 2024⟩,
        "bank-transfer"⟩ : SuggestedTransaction).type = "income" ↔
      isIncomeLine "01/05/2024 Salary Deposit 2000.00".data
        (⟨"income", 2000, "Salary Deposit", "other-income", ⟨1, 5, 2024⟩,
          "bank-transfer"⟩ : SuggestedTransaction).description.data = true) :=
  ⟨by decide, C3_history_row_amended.2 _ _ (by decide)⟩

/-- Counterexample to C3 as stated: the `+`-signed row from the spec
produces no transaction at all. -/
theorem C3_counterexample :
    parseTransactionHistory "01/05/2024 Salary Deposit +2000.00" = [] := by decide

/-- Claim C4: history mode triggers iff some trimmed non-empty line
contains, case-insensitively, `date` and `amount` and (`description` or
`transaction`); true for the header example, false for the receipt
example. -/
theorem C4_history_mode :
    (∀ text : String, isTransactionHistory text = true ↔
      ∃ line ∈ normalizeLines text,
        containsSub (lowerL line) "date".data = true ∧
        containsSub (lowerL line) "amount".data = true ∧
        (containsSub (lowerL line) "description".data = true ∨
          containsSub (lowerL line) "transaction".data = true)) ∧
    isTransactionHistory "Date Amount Description\n01/02/2024 Coffee 4.50" = true ∧
    isTransactionHistory "Receipt\nTotal $10.00" = false := by
  refine ⟨fun text => ?_, by decide, by decide⟩
  unfold isTransactionHistory
  rw [List.any_eq_true]
  constructor
  · rintro ⟨line, hmem, hp⟩
    simp only [Bool.and_eq_true, Bool.or_eq_true] at hp
    exact ⟨line, hmem, hp.1.1, hp.1.2, hp.2⟩
  · rintro ⟨line, hmem, h1, h2, h3⟩
    refine ⟨line, hmem, ?_⟩
    simp only [Bool.and_eq_true, Bool.or_eq_true]
    exact ⟨⟨h1, h2⟩, h3⟩

/-- Claim C5: when the scan detected no total (0) and items exist, the
total is the sum of the item prices; when a positive total was detected,
the items do not alter it. -/
theorem C5_total_fallback :
    (∀ text : String, detectedTotal (normalizeLines text) = 0 →
      (extractReceiptData text).items ≠ [] →
      (extractReceiptData text).totalAmount =
        (extractReceiptData text).items.foldl (fun acc it => acc.add it.price) 0) ∧
    (∀ text : String, (0 : Money).lt (detectedTotal (normalizeLines text)) = true →
      (extractReceiptData text).totalAmount = detectedTotal (normalizeLines text)) := by
  constructor
  · intro text h0 hne
    have hitems : (extractReceiptData text).items =
        extractItems (normalizeLines text) := rfl
    rw [hitems] at hne ⊢
    have hproj : (extractReceiptData text).totalAmount =
        fallbackTotal (detectedTotal (normalizeLines text))
          (extractItems (normalizeLines text)) := rfl
    obtain ⟨a, l, hE⟩ : ∃ a l, extractItems (normalizeLines text) = a :: l := by
      cases hE : extractItems (normalizeLines text) with
      | nil => exact absurd hE hne
      | cons a l => exact ⟨a, l, rfl⟩
    have hlen : 0 < (extractItems (normalizeLines text)).length := by
      rw [hE]; simp
    have hpos : 0 < ((extractItems (normalizeLines text)).foldl
        (fun (acc : Money) it => acc.add it.price) 0).num := by
      rw [hE, List.foldl_cons]
      apply foldl_add_keeps_pos
      apply money_add_pos_right
      have ha : a ∈ List.filterMap itemOfLine (normalizeLines text) := by
        rw [show List.filterMap itemOfLine (normalizeLines text) =
          extractItems (normalizeLines text) from rfl, hE]
        exact List.mem_cons_self a l
      obtain ⟨ln, -, hrow⟩ := List.mem_filterMap.mp ha
      exact itemOfLine_price_pos ln a hrow
    rw [hproj, fallbackTotal, if_pos ⟨h0, hlen⟩,
      if_pos ((money_zero_lt_iff _).mpr hpos)]
  · intro text hlt
    have hproj : (extractReceiptData text).totalAmount =
        fallbackTotal (detectedTotal (normalizeLines text))
          (extractItems (normalizeLines text)) := rfl
    have hne : ¬(detectedTotal (normalizeLines text) = 0 ∧
        0 < (extractItems (normalizeLines text)).length) := by
      rintro ⟨h0, -⟩
      exact money_pos_ne_zero _ hlt h0
    rw [hproj, fallbackTotal, if_neg hne]

/-- Witness for C5: fallback case on two items 3.50 and 6.25 (sum 9.75),
and direct case on a detected total of 45. -/
theorem C5_witness :
    (detectedTotal (normalizeLines "Abc 3.50\nDefg 6.25") = 0 ∧
      (extractReceiptData "Abc 3.50\nDefg 6.25").items ≠ [] ∧
      (extractReceiptData "Abc 3.50\nDefg 6.25").totalAmount =
        (extractReceiptData "Abc 3.50\nDefg 6.25").items.foldl
          (fun acc it => acc.add it.price) 0) ∧
    ((0 : Money).lt (detectedTotal (normalizeLines "TOTAL $45.00")) = true ∧
      (extractReceiptData "TOTAL $45.00").totalAmount =
        detectedTotal (normalizeLines "TOTAL $45.00")) :=
  ⟨⟨by decide, by decide, C5_total_fallback.1 _ (by decide) (by decide)⟩,
   by decide, C5_total_fallback.2 _ (by decide)⟩

/-- Claim C6: the classifier lowercases the name and walks the keyword
table in declaration order (food, groceries, gas, shopping, healthcare,
entertainment, transportation, utilities), returning the first category
with a keyword occurring in the name, else `"other-expense"`; with the two
concrete examples. -/
theorem C6_classifier :
    (∀ name : String, suggestCategory name = suggestCategorySpec name) ∧
    categoryKeywords.map Prod.fst =
      ["food", "groceries", "gas", "shopping", "healthcare", "entertainment",
       "transportation", "utilities"] ∧
    suggestCategory "Shell Gas Station" = "gas" ∧
    suggestCategory "Unknown Biz" = "other-expense" := by
  refine ⟨fun name => ?_, by decide, by decide, by decide⟩
  simp only [suggestCategory, suggestCategorySpec]
  exact find?_eq_firstMatching _ _

/-- Claim C7: the extracted items are exactly the per-line results of the
claimed rule (lines containing `total`/`tax` excluded, pattern match with
trimmed-description length > 2 and positive price, quantity 1), in input
line order; with the §8 diner scenario evaluated in full. -/
theorem C7_line_items :
    (∀ text : String,
      (extractReceiptData text).items = (normalizeLines text).filterMap lineItemSpec) ∧
    extractReceiptData "Joe\x27s Diner\nBurger 8.50\nFries 3.00\nTAX 0.90\nTOTAL 12.40" =
      ⟨"Joe\x27s Diner", "", mkMoney 1240 100, mkMoney 90 100, none,
       [⟨"Burger", mkMoney 850 100, 1⟩, ⟨"Fries", mkMoney 300 100, 1⟩]⟩ := by
  constructor
  · intro text
    have hitems : (extractReceiptData text).items =
        (normalizeLines text).filterMap itemOfLine := rfl
    rw [hitems, show itemOfLine = lineItemSpec from funext itemOfLine_eq_spec]
  · decide

/-- Claim C8: when the upstream OCR/PDF decode fails for an uploaded file,
both upload routes still answer 200/success with the placeholder suggested
transaction (amount 0, category `"other-expense"`, description
`"Manual entry required"`, date = now) instead of a hard error. -/
theorem C8_decode_failure_placeholder :
    ∀ (f : UploadedFile) (now : JsDate),
      uploadImageHandler (some f) none now =
        ⟨200, true, "Receipt uploaded but OCR processing failed",
          some ⟨"expense", 0, "Manual entry required", "other-expense", now, none⟩,
          none⟩ ∧
      uploadPdfHandler (some f) none now =
        ⟨200, true, "PDF uploaded but processing failed",
          some ⟨"expense", 0, "Manual entry required", "other-expense", now, none⟩,
          none⟩ :=
  fun _ _ => ⟨rfl, rfl⟩

/-- Claim C9: the range of `suggestCategory` is exactly the nine listed
strings; of these, `food`, `utilities` and `other-expense` fail the
Transaction model's expense-category validator, while the other six pass
it. -/
theorem C9_category_range :
    (∀ name : String, suggestCategory name ∈ nineCats) ∧
    (∀ c : String, c ∈ nineCats → ∃ name : String, suggestCategory name = c) ∧
    (validCategory "expense" "food" = false ∧
      validCategory "expense" "utilities" = false ∧
      validCategory "expense" "other-expense" = false) ∧
    (validCategory "expense" "groceries" = true ∧
      validCategory "expense" "gas" = true ∧
      validCategory "expense" "shopping" = true ∧
      validCategory "expense" "healthcare" = true ∧
      validCategory "expense" "entertainment" = true ∧
      validCategory "expense" "transportation" = true) := by
  refine ⟨suggestCategory_mem, fun c hc => ?_, by decide, by decide⟩
  unfold nineCats at hc
  fin_cases hc
  · exact ⟨"cafe", by decide⟩
  · exact ⟨"grocery", by decide⟩
  · exact ⟨"fuel", by decide⟩
  · exact ⟨"mall", by decide⟩
  · exact ⟨"clinic", by decide⟩
  · exact ⟨"cinema", by decide⟩
  · exact ⟨"taxi", by decide⟩
  · exact ⟨"electric", by decide⟩
  · exact ⟨"zzz", by decide⟩

/-- Witness for C9's attainability clause at `"food"`. -/
theorem C9_witness :
    ("food" ∈ nineCats) ∧ (∃ name : String, suggestCategory name = "food") :=
  ⟨by decide, C9_category_range.2.1 "food" (by decide)⟩

/-- Claim C10: every emitted history transaction has positive amount and
payment method `"bank-transfer"`, and is income exactly when its category
is `"other-income"`; and a `-` immediately before the amount is consumed
by the sign class, so a negatively-signed row is emitted with a positive
amount rather than dropped. -/
theorem C10_history_invariants :
    (∀ (text : String) (t : SuggestedTransaction), t ∈ parseTransactionHistory text →
      (0 : Money).lt t.amount = true ∧ t.paymentMethod = "bank-transfer" ∧
        (t.type = "income" ↔ t.category = "other-income")) ∧
    parseTransactionHistory "01/05/2024 Refund -50.00" =
      [⟨"expense", 50, "Refund", "other-expense", ⟨1, 5, 2024⟩, "bank-transfer"⟩] := by
  constructor
  · intro text t ht
    have ht' : t ∈ List.filterMap rowOfLine (normalizeLines text) := ht
    obtain ⟨line, -, hrow⟩ := List.mem_filterMap.mp ht'
    obtain ⟨h1, h2, -, h4⟩ := rowOfLine_spec line t hrow
    exact ⟨h1, h2, h4⟩
  · decide

/-- Witness for C10's universal clause at the negatively-signed refund
row. -/
theorem C10_witness :
    ((⟨"expense", 50, "Refund", "other-expense", ⟨1, 5, 2024⟩, "bank-transfer"⟩ :
        SuggestedTransaction) ∈ parseTransactionHistory "01/05/2024 Refund -50.00") ∧
    ((0 : Money).lt
        (⟨"expense", 50, "Refund", "other-expense", ⟨1, 5, 2024⟩, "bank-transfer"⟩ :
          SuggestedTransaction).amount = true ∧
      (⟨"expense", 50, "Refund", "other-expense", ⟨1, 5, 2024⟩, "bank-transfer"⟩ :
          SuggestedTransaction).paymentMethod = "bank-transfer" ∧
      ((⟨"expense", 50, "Refund", "other-expense", ⟨1, 5, 2024⟩, "bank-transfer"⟩ :
          SuggestedTransaction).type = "income" ↔
        (⟨"expense", 50, "Refund", "other-expense", ⟨1, 5, 2024⟩, "bank-transfer"⟩ :
          SuggestedTransaction).category = "other-income")) :=
  ⟨by decide, C10_history_invariants.1 "01/05/2024 Refund -50.00" _ (by decide)⟩

end Finance
